import Mathlib

/-!
Verification of the WunderWohn vacation-rental backend (src/server.py):
a shallow embedding of its booking engine and property query filter,
followed by theorems settling the frozen claims about the spec.

Modelling conventions:
* the Mongo document store is a record of three lists (users, properties,
  bookings); find_one is List.find? on the stored order, find(filter)
  followed by to_list(n) is List.filter followed by List.take n,
  delete_one is List.eraseP (first match);
* the store-internal Mongo identity field _id is modelled as an optional
  mongoId field on stored documents; the handlers in the source delete
  that key (or rebuild the record through a pydantic model, which ignores
  it) before returning, modelled by setting the field to none;
* Python date values are calendar dates; subtraction of two dates gives
  the difference of their proleptic-Gregorian ordinals in days, embedded
  by Date.toOrdinal below (the algorithm of datetime.date.toordinal);
* decimal prices (Python float in the source, always handled exactly at
  the precision the claims use) are embedded as exact rationals;
* raising HTTPException aborts the handler before any write, so each
  handler returns the (possibly unchanged) store together with either a
  domain error or its response payload.
-/

namespace Wunderwohn

/-- A calendar date as in the Python datetime.date values exchanged by the
handlers: year, month (1..12) and day of month. -/
structure Date where
  year : Int
  month : Nat
  day : Nat
deriving DecidableEq

/-- Leap-year test of the proleptic Gregorian calendar. -/
def isLeap (y : Int) : Bool :=
  (y % 4 == 0 && y % 100 != 0) || (y % 400 == 0)

/-- Days in the year strictly before the first day of month m (1-based). -/
def daysBeforeMonth (leap : Bool) (m : Nat) : Nat :=
  [0, 0, 31, 59, 90, 120, 151, 181, 212, 243, 273, 304, 334].getD m 0
    + (if leap && m > 2 then 1 else 0)

/-- Days strictly before January 1 of year y, counted from the epoch of
ordinal day numbers (ordinal 1 is January 1 of year 1). -/
def daysBeforeYear (y : Int) : Int :=
  let py := y - 1
  365 * py + py.fdiv 4 - py.fdiv 100 + py.fdiv 400

/-- Proleptic-Gregorian ordinal of a date, as datetime.date.toordinal. -/
def Date.toOrdinal (d : Date) : Int :=
  daysBeforeYear d.year + (daysBeforeMonth (isLeap d.year) d.month : Int) + (d.day : Int)

/-- Python date subtraction: (a - b).days. -/
def dateSub (a b : Date) : Int :=
  a.toOrdinal - b.toOrdinal

/-- User record (model User in the source). -/
structure User where
  id : String
  email : String
  first_name : String
  last_name : String
  password_hash : String
  created_at : Int
deriving DecidableEq

/-- Property record as stored (model Property in the source, plus the
store-internal mongoId carried by the stored document). -/
structure Property where
  id : String
  title : String
  description : String
  property_type : String
  city : String
  state : String
  address : String
  price_per_night : Rat
  max_guests : Int
  bedrooms : Int
  bathrooms : Int
  amenities : List String
  images : List String
  available : Bool
  created_at : Int
  mongoId : Option String
deriving DecidableEq

/-- Booking record as stored (model Booking in the source, plus the
store-internal mongoId carried by the stored document). -/
structure Booking where
  id : String
  user_id : String
  property_id : String
  check_in : Date
  check_out : Date
  guests : Int
  total_price : Rat
  status : String
  created_at : Int
  mongoId : Option String
deriving DecidableEq

/-- Request body of the booking-creation endpoint (BookingCreate). -/
structure BookingCreate where
  property_id : String
  check_in : Date
  check_out : Date
  guests : Int
deriving DecidableEq

/-- The document store: the three collections used by the core. -/
structure Store where
  users : List User
  properties : List Property
  bookings : List Booking
deriving DecidableEq

/-- Domain errors surfaced by the handlers (HTTPException status codes
404, 400 and 403 in the source). -/
inductive ApiError where
  | notFound
  | invalidRange
  | forbidden
deriving DecidableEq

/-- The reserved admin identity hardcoded in the source. -/
def adminEmail : String := "admin@wunderwohn.com"

/-- Response payload of POST /bookings. -/
structure CreateBookingResponse where
  success : Bool
  booking_id : String
  total_price : Rat
deriving DecidableEq

/-- Response payload of DELETE /bookings/{id}. -/
structure DeleteBookingResponse where
  success : Bool
  message : String
deriving DecidableEq

/-- Strip the store-internal identity from a booking document, as done by
deleting its _id key before returning it. -/
def stripBooking (b : Booking) : Booking :=
  { b with mongoId := none }

/-- Strip the store-internal identity from a property document. -/
def stripProperty (p : Property) : Property :=
  { p with mongoId := none }

/-- POST /bookings (create_booking in the source). Besides the request
data it takes the freshly generated uuid and the creation timestamp as
parameters, since those are drawn from the environment. -/
def create_booking (s : Store) (current_user : User) (newId : String) (now : Int)
    (booking_data : BookingCreate) : Store × Except ApiError CreateBookingResponse :=
  match s.properties.find? (fun p => p.id == booking_data.property_id) with
  | none => (s, .error .notFound)
  | some property_doc =>
    let days := dateSub booking_data.check_out booking_data.check_in
    if days ≤ 0 then
      (s, .error .invalidRange)
    else
      let total_price : Rat := (days : Rat) * property_doc.price_per_night
      let booking : Booking :=
        { id := newId
          user_id := current_user.id
          property_id := booking_data.property_id
          check_in := booking_data.check_in
          check_out := booking_data.check_out
          guests := booking_data.guests
          total_price := total_price
          status := "confirmed"
          created_at := now
          mongoId := none }
      ({ s with bookings := s.bookings ++ [booking] },
       .ok { success := true, booking_id := newId, total_price := total_price })

/-- The bookings read by GET /bookings for a given caller: all bookings
(first 1000) for the admin identity, the bookings owned by the caller
(first 100) otherwise. -/
def visibleBookings (s : Store) (current_user : User) : List Booking :=
  if current_user.email == adminEmail then
    s.bookings.take 1000
  else
    (s.bookings.filter (fun b => b.user_id == current_user.id)).take 100

/-- An element of the GET /bookings response: the booking with the joined
property record, or none when the referenced property no longer exists. -/
structure BookingWithProperty where
  booking : Booking
  property : Option Property
deriving DecidableEq

/-- GET /bookings (get_user_bookings in the source). -/
def get_user_bookings (s : Store) (current_user : User) : List BookingWithProperty :=
  (visibleBookings s current_user).map (fun b =>
    { booking := stripBooking b
      property := (s.properties.find? (fun p => p.id == b.property_id)).map stripProperty })

/-- DELETE /bookings/{id} (delete_booking in the source). -/
def delete_booking (s : Store) (current_user : User) (booking_id : String) :
    Store × Except ApiError DeleteBookingResponse :=
  match s.bookings.find? (fun b => b.id == booking_id) with
  | none => (s, .error .notFound)
  | some booking =>
    if booking.user_id != current_user.id && current_user.email != adminEmail then
      (s, .error .forbidden)
    else
      let deleted_count : Nat := if s.bookings.any (fun b => b.id == booking_id) then 1 else 0
      let s2 := { s with bookings := s.bookings.eraseP (fun b => b.id == booking_id) }
      if deleted_count == 0 then
        (s2, .error .notFound)
      else
        (s2, .ok { success := true, message := "Booking deleted successfully" })

/-- Python truthiness of an optional string argument: None and the empty
string are falsy. -/
def strTruthy : Option String → Bool
  | none => false
  | some s => !(s == "")

/-- Python truthiness of an optional numeric argument: None and 0 are
falsy. -/
def ratTruthy : Option Rat → Bool
  | none => false
  | some q => !(q == 0)

/-- Python truthiness of an optional integer argument: None and 0 are
falsy. -/
def intTruthy : Option Int → Bool
  | none => false
  | some n => !(n == 0)

/-- The constraints of the Mongo filter document built by get_properties:
each component is present exactly when the corresponding query argument
is truthy (the source only adds a key under an `if arg:` guard). -/
structure FilterDict where
  cityPat : Option String
  priceLo : Option Rat
  priceHi : Option Rat
  guestsMin : Option Int
  typePat : Option String
deriving DecidableEq

/-- Build the filter document from the query arguments, following the
construction in get_properties line by line (the two branches on whether
the price key is already present both end with the same constraints). -/
def mkFilter (city : Option String) (min_price max_price : Option Rat)
    (min_guests : Option Int) (property_type : Option String) : FilterDict :=
  { cityPat := if strTruthy city then city else none
    priceLo := if ratTruthy min_price then min_price else none
    priceHi := if ratTruthy max_price then max_price else none
    guestsMin := if intTruthy min_guests then min_guests else none
    typePat := if strTruthy property_type then property_type else none }

/-- Case-insensitive substring auxiliary on character lists. -/
def substrAux (pat : List Char) : List Char → Bool
  | [] => pat.isPrefixOf []
  | c :: t => pat.isPrefixOf (c :: t) || substrAux pat t

/-- Lowercased character list of a string. -/
def lowerChars (s : String) : List Char :=
  s.data.map Char.toLower

/-- Case-insensitive substring match, the semantics of the Mongo
regex-with-option-i constraints built by get_properties. -/
def ciContains (s pat : String) : Bool :=
  substrAux (lowerChars pat) (lowerChars s)

/-- Evaluate the filter document on a stored property: the availability
constraint is always present; every other constraint only when set. -/
def matchesFilter (f : FilterDict) (p : Property) : Bool :=
  p.available
    && (match f.cityPat with
        | none => true
        | some c => ciContains p.city c)
    && (match f.priceLo with
        | none => true
        | some lo => decide (lo ≤ p.price_per_night))
    && (match f.priceHi with
        | none => true
        | some hi => decide (p.price_per_night ≤ hi))
    && (match f.guestsMin with
        | none => true
        | some g => decide (g ≤ p.max_guests))
    && (match f.typePat with
        | none => true
        | some t => ciContains p.property_type t)

/-- GET /properties (get_properties in the source): filter the stored
properties by the built filter document, read at most 100 results, and
rebuild each through the pydantic model (which drops the store-internal
identity). -/
def get_properties (s : Store) (city : Option String) (min_price max_price : Option Rat)
    (min_guests : Option Int) (property_type : Option String) : List Property :=
  (((s.properties.filter
      (matchesFilter (mkFilter city min_price max_price min_guests property_type))).take 100).map
    stripProperty)

deriving instance DecidableEq for Except

/-! Concrete fixtures used by the witness theorems. -/

/-- A sample stored property priced 120 per night, as in the seeded data. -/
def demoProp : Property :=
  { id := "p1"
    title := "Charming Apartment in Berlin Mitte"
    description := "Sample"
    property_type := "apartment"
    city := "Berlin"
    state := "Berlin"
    address := "Alexanderplatz 1"
    price_per_night := 120
    max_guests := 4
    bedrooms := 2
    bathrooms := 1
    amenities := []
    images := []
    available := true
    created_at := 0
    mongoId := some ("m-p1") }

/-- A sample non-admin user. -/
def demoUser : User :=
  { id := "u1"
    email := "user1@example.com"
    first_name := "Ulla"
    last_name := "One"
    password_hash := "h1"
    created_at := 0 }

/-- A second non-admin user, distinct from demoUser. -/
def demoUser2 : User :=
  { id := "u2"
    email := "user2@example.com"
    first_name := "Uwe"
    last_name := "Two"
    password_hash := "h2"
    created_at := 0 }

/-- The admin user carrying the reserved admin email. -/
def demoAdmin : User :=
  { id := "ua"
    email := "admin@wunderwohn.com"
    first_name := "Admin"
    last_name := "User"
    password_hash := "ha"
    created_at := 0 }

/-- A booking request for demoProp over 2025-06-01 .. 2025-06-04. -/
def demoReq : BookingCreate :=
  { property_id := "p1"
    check_in := ⟨2025, 6, 1⟩
    check_out := ⟨2025, 6, 4⟩
    guests := 2 }

/-- A store holding demoProp and no bookings. -/
def demoStore : Store :=
  { users := [demoUser, demoAdmin]
    properties := [demoProp]
    bookings := [] }

/-- A stored booking by demoUser for demoProp over 2025-06-01 .. 2025-06-04,
carrying a store-internal identity. -/
def demoBooking1 : Booking :=
  { id := "bk1"
    user_id := "u1"
    property_id := "p1"
    check_in := ⟨2025, 6, 1⟩
    check_out := ⟨2025, 6, 4⟩
    guests := 2
    total_price := 360
    status := "confirmed"
    created_at := 0
    mongoId := some ("m-bk1") }

/-- A stored booking by demoUser2 whose referenced property id resolves to
no stored property (a dangling reference). -/
def demoBooking2 : Booking :=
  { id := "bk2"
    user_id := "u2"
    property_id := "ghost"
    check_in := ⟨2025, 7, 1⟩
    check_out := ⟨2025, 7, 3⟩
    guests := 1
    total_price := 240
    status := "confirmed"
    created_at := 0
    mongoId := some ("m-bk2") }

/-- A store with one property and two bookings by different owners. -/
def demoStore2 : Store :=
  { users := [demoUser, demoUser2, demoAdmin]
    properties := [demoProp]
    bookings := [demoBooking1, demoBooking2] }

/-- A family of bookings owned by demoUser, distinguished by guest count. -/
def capBooking (n : Nat) : Booking :=
  { id := "b"
    user_id := "u1"
    property_id := "p1"
    check_in := ⟨2025, 6, 1⟩
    check_out := ⟨2025, 6, 2⟩
    guests := (n : Int)
    total_price := 120
    status := "confirmed"
    created_at := 0
    mongoId := none }

/-- A store in which demoUser owns 101 bookings, one more than the
listing cap for non-admin callers. -/
def capStore : Store :=
  { users := [demoUser]
    properties := []
    bookings := (List.range 101).map capBooking }

/-- A sample stored property priced 150 per night. -/
def hamburgProp : Property :=
  { id := "p2"
    title := "Modern Riverside Apartment in Hamburg"
    description := "Sample"
    property_type := "apartment"
    city := "Hamburg"
    state := "Hamburg"
    address := "HafenCity 10"
    price_per_night := 150
    max_guests := 3
    bedrooms := 1
    bathrooms := 1
    amenities := []
    images := []
    available := true
    created_at := 0
    mongoId := none }

/-- A sample stored property priced 300 per night. -/
def cexProp : Property :=
  { id := "p3"
    title := "Charming Villa in Stuttgart Hills"
    description := "Sample"
    property_type := "villa"
    city := "Stuttgart"
    state := "Baden-Wuerttemberg"
    address := "Koenigstrasse 25"
    price_per_night := 300
    max_guests := 8
    bedrooms := 4
    bathrooms := 3
    amenities := []
    images := []
    available := true
    created_at := 0
    mongoId := none }

/-- A store holding only cexProp. -/
def cexStore : Store :=
  { users := []
    properties := [cexProp]
    bookings := [] }

/-- A store with properties priced 120, 150 and 300. -/
def rangeStore : Store :=
  { users := []
    properties := [demoProp, hamburgProp, cexProp]
    bookings := [] }

/-- Claim C1: when the property id resolves and the night count is
strictly positive, booking creation succeeds and returns a total price of
exactly nights times the price per night read from the property at
creation time. -/
theorem create_booking_total_price (s : Store) (u : User) (newId : String) (now : Int)
    (bd : BookingCreate) (prop : Property)
    (hfind : s.properties.find? (fun p => p.id == bd.property_id) = some prop)
    (hnights : 0 < dateSub bd.check_out bd.check_in) :
    (create_booking s u newId now bd).2 =
      Except.ok { success := true, booking_id := newId,
                  total_price := (dateSub bd.check_out bd.check_in : Rat) * prop.price_per_night } := by
  simp [create_booking, hfind, not_le.mpr hnights]

/-- Witness for C1, realising the example scenario of the spec: price
120 per night, check-in 2025-06-01, check-out 2025-06-04, hence 3 nights
and total price 360. -/
theorem create_booking_total_price_witness :
    (create_booking demoStore demoUser "b1" 0 demoReq).2 =
      Except.ok { success := true, booking_id := "b1", total_price := 360 } := by
  have hd : dateSub demoReq.check_out demoReq.check_in = 3 := by decide
  have h := create_booking_total_price demoStore demoUser "b1" 0 demoReq demoProp
    (by decide) (by decide)
  rw [hd] at h
  rw [h]
  norm_num [demoProp]

/-- Claim C2: booking creation fails with NotFound exactly when the
property id does not resolve (the lookup precedes date validation, so an
unresolvable id yields NotFound for every date pair); given the property
exists it fails with InvalidRange exactly when the night count is zero or
negative, and succeeds in every other case. -/
theorem create_booking_error_cases (s : Store) (u : User) (newId : String) (now : Int)
    (bd : BookingCreate) :
    ((create_booking s u newId now bd).2 = Except.error ApiError.notFound ↔
        s.properties.find? (fun p => p.id == bd.property_id) = none) ∧
    (∀ prop, s.properties.find? (fun p => p.id == bd.property_id) = some prop →
        ((create_booking s u newId now bd).2 = Except.error ApiError.invalidRange ↔
           dateSub bd.check_out bd.check_in ≤ 0)) ∧
    (∀ prop, s.properties.find? (fun p => p.id == bd.property_id) = some prop →
        0 < dateSub bd.check_out bd.check_in →
        ∃ r, (create_booking s u newId now bd).2 = Except.ok r) := by
  cases hf : s.properties.find? (fun p => p.id == bd.property_id) with
  | none =>
    refine ⟨by simp [create_booking, hf], ?_, ?_⟩ <;> intro prop hp <;> cases hp
  | some prop2 =>
    refine ⟨?_, ?_, ?_⟩
    · by_cases hd : dateSub bd.check_out bd.check_in ≤ 0 <;>
        simp [create_booking, hf, hd]
    · intro prop hp
      by_cases hd : dateSub bd.check_out bd.check_in ≤ 0 <;>
        simp [create_booking, hf, hd]
    · intro prop hp hpos
      refine ⟨{ success := true, booking_id := newId,
                total_price := (dateSub bd.check_out bd.check_in : Rat) *
                  prop2.price_per_night }, ?_⟩
      simp [create_booking, hf, not_le.mpr hpos]

/-- Witness for C2: a request naming an unknown property id fails with
NotFound even though its date range is also invalid (lookup precedes date
validation), and a request with checkOut equal to checkIn on an existing
property fails with InvalidRange. -/
theorem create_booking_error_cases_witness :
    (create_booking demoStore demoUser "b1" 0
        { property_id := "missing", check_in := ⟨2025, 6, 4⟩, check_out := ⟨2025, 6, 1⟩,
          guests := 2 }).2 = Except.error ApiError.notFound ∧
    (create_booking demoStore demoUser "b1" 0
        { property_id := "p1", check_in := ⟨2025, 6, 1⟩, check_out := ⟨2025, 6, 1⟩,
          guests := 2 }).2 = Except.error ApiError.invalidRange := by
  constructor
  · exact (create_booking_error_cases demoStore demoUser "b1" 0
      { property_id := "missing", check_in := ⟨2025, 6, 4⟩, check_out := ⟨2025, 6, 1⟩,
        guests := 2 }).1.mpr (by decide)
  · exact ((create_booking_error_cases demoStore demoUser "b1" 0
      { property_id := "p1", check_in := ⟨2025, 6, 1⟩, check_out := ⟨2025, 6, 1⟩,
        guests := 2 }).2.1 demoProp (by decide)).mpr (by decide)

/-- Counterexample for C3: capStore holds 101 bookings owned by demoUser
(a non-admin); the booking with guest count 100 is owned by the caller
yet absent from the returned list, because the listing reads at most the
first 100 matches. The claim that the list contains exactly the bookings
owned by the caller is therefore false as stated. -/
theorem get_user_bookings_exactly_owned_cex :
    demoUser.email ≠ adminEmail ∧
    capStore.bookings.any (fun b => b.user_id == demoUser.id && b.guests == 100) = true ∧
    (get_user_bookings capStore demoUser).any (fun r => r.booking.guests == 100) = false := by
  refine ⟨by decide, by decide, by decide⟩

/-- Claim C3 (amended): the admin identity receives every booking when the
store holds at most 1000 of them (the read is capped at 1000); any other
identity receives only bookings whose owner id equals its own id, and
receives all of them when it owns at most 100 (the read is capped at
100). -/
theorem get_user_bookings_visibility (s : Store) (u : User) :
    (u.email = adminEmail → s.bookings.length ≤ 1000 →
      (get_user_bookings s u).map (fun r => r.booking) = s.bookings.map stripBooking) ∧
    (u.email ≠ adminEmail →
      ((∀ r ∈ get_user_bookings s u, r.booking.user_id = u.id) ∧
       ((s.bookings.filter (fun b => b.user_id == u.id)).length ≤ 100 →
         (get_user_bookings s u).map (fun r => r.booking) =
           (s.bookings.filter (fun b => b.user_id == u.id)).map stripBooking))) := by
  constructor
  · intro he hlen
    have hb : (u.email == adminEmail) = true := beq_iff_eq.mpr he
    simp [get_user_bookings, visibleBookings, hb, List.take_of_length_le hlen,
      List.map_map]
  · intro he
    have hb : (u.email == adminEmail) = false := beq_eq_false_iff_ne.mpr he
    constructor
    · intro r hr
      simp only [get_user_bookings, visibleBookings, hb, Bool.false_eq_true, if_false] at hr
      rcases List.mem_map.mp hr with ⟨b, hbm, rfl⟩
      have hmem := List.mem_filter.mp (List.mem_of_mem_take hbm)
      exact beq_iff_eq.mp hmem.2
    · intro hlen
      simp [get_user_bookings, visibleBookings, hb, List.take_of_length_le hlen,
        List.map_map]

/-- Witness for C3 (amended): in demoStore2 the non-admin demoUser sees
exactly the one booking they own, and the admin identity sees both stored
bookings. -/
theorem get_user_bookings_visibility_witness :
    (get_user_bookings demoStore2 demoUser).map (fun r => r.booking) =
      [stripBooking demoBooking1] ∧
    (get_user_bookings demoStore2 demoAdmin).map (fun r => r.booking) =
      demoStore2.bookings.map stripBooking := by
  constructor
  · have h := ((get_user_bookings_visibility demoStore2 demoUser).2 (by decide)).2 (by decide)
    rw [h]; decide
  · exact (get_user_bookings_visibility demoStore2 demoAdmin).1 (by decide) (by decide)

/-- Claim C4: deleting an existing booking as an identity that is neither
the owner nor the admin fails with Forbidden and leaves the store
unchanged; deleting an unresolvable booking id fails with NotFound and
leaves the store unchanged. -/
theorem delete_booking_auth (s : Store) (u : User) (bid : String) :
    (s.bookings.find? (fun b => b.id == bid) = none →
       delete_booking s u bid = (s, Except.error ApiError.notFound)) ∧
    (∀ b, s.bookings.find? (fun b2 => b2.id == bid) = some b →
       b.user_id ≠ u.id → u.email ≠ adminEmail →
       delete_booking s u bid = (s, Except.error ApiError.forbidden)) := by
  constructor
  · intro hf
    simp [delete_booking, hf]
  · intro b hf h1 h2
    have hcond : (b.user_id != u.id && u.email != adminEmail) = true := by
      simp [bne_iff_ne, h1, h2]
    simp [delete_booking, hf, hcond]

/-- Witness for C4: demoUser can neither delete the booking owned by
demoUser2 (Forbidden, store unchanged) nor a nonexistent booking id
(NotFound, store unchanged). -/
theorem delete_booking_auth_witness :
    delete_booking demoStore2 demoUser "bk2" = (demoStore2, Except.error ApiError.forbidden) ∧
    delete_booking demoStore2 demoUser "nope" = (demoStore2, Except.error ApiError.notFound) := by
  constructor
  · exact (delete_booking_auth demoStore2 demoUser "bk2").2 demoBooking2
      (by decide) (by decide) (by decide)
  · exact (delete_booking_auth demoStore2 demoUser "nope").1 (by decide)

/-- Claim C5: every search result contains only properties whose
availability flag is true, and never more than 100 properties. -/
theorem get_properties_available_and_capped (s : Store) (city : Option String)
    (mi ma : Option Rat) (mg : Option Int) (pt : Option String) :
    (get_properties s city mi ma mg pt).length ≤ 100 ∧
    (∀ p ∈ get_properties s city mi ma mg pt, p.available = true) := by
  constructor
  · unfold get_properties
    rw [List.length_map, List.length_take]
    exact Nat.min_le_left _ _
  · intro p hp
    unfold get_properties at hp
    rcases List.mem_map.mp hp with ⟨q, hq, rfl⟩
    have hm := (List.mem_filter.mp (List.mem_of_mem_take hq)).2
    simp only [matchesFilter, Bool.and_eq_true] at hm
    exact hm.1.1.1.1.1

/-- Witness for C5: the empty-criteria search over demoStore2 is within
the cap and the returned copy of demoProp is available. -/
theorem get_properties_available_and_capped_witness :
    (get_properties demoStore2 none none none none none).length ≤ 100 ∧
    (stripProperty demoProp).available = true := by
  constructor
  · exact (get_properties_available_and_capped demoStore2 none none none none none).1
  · exact (get_properties_available_and_capped demoStore2 none none none none none).2
      (stripProperty demoProp) (by decide)

/-- Counterexample for C6: with minPrice set to 150 and maxPrice set to 0
the search over cexStore returns the property priced 300, which does not
lie in the inclusive range [150, 0]: a set-but-zero maxPrice imposes no
upper bound, so the claim is false as stated. -/
theorem get_properties_price_range_cex :
    get_properties cexStore none (some 150) (some 0) none none = [stripProperty cexProp] ∧
    ¬((150 : Rat) ≤ (stripProperty cexProp).price_per_night ∧
      (stripProperty cexProp).price_per_night ≤ 0) := by
  refine ⟨by decide, by decide⟩

/-- Claim C6 (amended): every option that is set to a truthy value (a
nonzero number, a nonempty string) constrains every returned property,
and the constraints combine conjunctively; in particular with minPrice
and maxPrice set to nonzero values every returned property is priced in
the inclusive range between them. -/
theorem get_properties_constraints (s : Store) (city : Option String) (mi ma : Option Rat)
    (mg : Option Int) (pt : Option String) :
    ∀ p ∈ get_properties s city mi ma mg pt,
      (∀ lo, mi = some lo → lo ≠ 0 → lo ≤ p.price_per_night) ∧
      (∀ hi, ma = some hi → hi ≠ 0 → p.price_per_night ≤ hi) ∧
      (∀ g, mg = some g → g ≠ 0 → g ≤ p.max_guests) ∧
      (∀ c, city = some c → c ≠ "" → ciContains p.city c = true) ∧
      (∀ t, pt = some t → t ≠ "" → ciContains p.property_type t = true) := by
  intro p hp
  unfold get_properties at hp
  rcases List.mem_map.mp hp with ⟨q, hq, rfl⟩
  have hm := (List.mem_filter.mp (List.mem_of_mem_take hq)).2
  simp only [matchesFilter, Bool.and_eq_true] at hm
  obtain ⟨⟨⟨⟨⟨hav, hcity⟩, hlo⟩, hhi⟩, hg⟩, ht⟩ := hm
  refine ⟨?_, ?_, ?_, ?_, ?_⟩
  · intro lo hmi hlo0
    subst hmi
    have hpick : (mkFilter city (some lo) ma mg pt).priceLo = some lo := by
      simp [mkFilter, ratTruthy, beq_iff_eq, hlo0]
    rw [hpick] at hlo
    exact of_decide_eq_true hlo
  · intro hi hma hhi0
    subst hma
    have hpick : (mkFilter city mi (some hi) mg pt).priceHi = some hi := by
      simp [mkFilter, ratTruthy, beq_iff_eq, hhi0]
    rw [hpick] at hhi
    exact of_decide_eq_true hhi
  · intro g hmg hg0
    subst hmg
    have hpick : (mkFilter city mi ma (some g) pt).guestsMin = some g := by
      simp [mkFilter, intTruthy, beq_iff_eq, hg0]
    rw [hpick] at hg
    exact of_decide_eq_true hg
  · intro c hc hc0
    subst hc
    have hpick : (mkFilter (some c) mi ma mg pt).cityPat = some c := by
      simp [mkFilter, strTruthy, beq_iff_eq, hc0]
    rw [hpick] at hcity
    exact hcity
  · intro t htp ht0
    subst htp
    have hpick : (mkFilter city mi ma mg (some t)).typePat = some t := by
      simp [mkFilter, strTruthy, beq_iff_eq, ht0]
    rw [hpick] at ht
    exact ht

/-- Witness for C6 (amended): searching rangeStore with minPrice 150 and
maxPrice 200 yields the property priced 150, whose price lies in the
inclusive range [150, 200]. -/
theorem get_properties_constraints_witness :
    (150 : Rat) ≤ (stripProperty hamburgProp).price_per_night ∧
    (stripProperty hamburgProp).price_per_night ≤ 200 := by
  have h := get_properties_constraints rangeStore none (some 150) (some 200) none none
    (stripProperty hamburgProp) (by decide)
  exact ⟨h.1 150 rfl (by norm_num), h.2.1 200 rfl (by norm_num)⟩

/-- Claim C7: booking creation performs no overlap check: even when the
store already holds a booking for the same property (with any dates,
including an identical range), a new valid request succeeds and the store
gains a second booking while the first remains. -/
theorem create_booking_ignores_overlap (s : Store) (u : User) (newId : String) (now : Int)
    (bd : BookingCreate) (b : Booking) (prop : Property)
    (hb : b ∈ s.bookings) (hsame : b.property_id = bd.property_id)
    (hfind : s.properties.find? (fun p => p.id == bd.property_id) = some prop)
    (hpos : 0 < dateSub bd.check_out bd.check_in) :
    ∃ r, (create_booking s u newId now bd).2 = Except.ok r ∧
      (create_booking s u newId now bd).1.bookings.length = s.bookings.length + 1 ∧
      b ∈ (create_booking s u newId now bd).1.bookings ∧
      ∃ b2 ∈ (create_booking s u newId now bd).1.bookings,
        b2.id = newId ∧ b2.property_id = b.property_id ∧
        b2.check_in = bd.check_in ∧ b2.check_out = bd.check_out := by
  refine ⟨{ success := true, booking_id := newId,
            total_price := (dateSub bd.check_out bd.check_in : Rat) * prop.price_per_night },
          ?_, ?_, ?_, ?_⟩
  · simp [create_booking, hfind, not_le.mpr hpos]
  · simp [create_booking, hfind, not_le.mpr hpos]
  · simp [create_booking, hfind, not_le.mpr hpos, List.mem_append, hb]
  · refine ⟨{ id := newId, user_id := u.id, property_id := bd.property_id,
              check_in := bd.check_in, check_out := bd.check_out, guests := bd.guests,
              total_price := (dateSub bd.check_out bd.check_in : Rat) * prop.price_per_night,
              status := "confirmed", created_at := now, mongoId := none }, ?_, rfl, hsame.symm,
            rfl, rfl⟩
    simp [create_booking, hfind, not_le.mpr hpos]

/-- Witness for C7: demoStore2 already holds demoBooking1 for property p1
over 2025-06-01 .. 2025-06-04; a second request by demoUser2 for p1 with
the identical date range succeeds and the store then holds one more
booking, demoBooking1 included. -/
theorem create_booking_ignores_overlap_witness :
    ∃ r, (create_booking demoStore2 demoUser2 "b9" 5 demoReq).2 = Except.ok r ∧
      (create_booking demoStore2 demoUser2 "b9" 5 demoReq).1.bookings.length =
        demoStore2.bookings.length + 1 ∧
      demoBooking1 ∈ (create_booking demoStore2 demoUser2 "b9" 5 demoReq).1.bookings ∧
      ∃ b2 ∈ (create_booking demoStore2 demoUser2 "b9" 5 demoReq).1.bookings,
        b2.id = "b9" ∧ b2.property_id = demoBooking1.property_id ∧
        b2.check_in = demoReq.check_in ∧ b2.check_out = demoReq.check_out :=
  create_booking_ignores_overlap demoStore2 demoUser2 "b9" 5 demoReq demoBooking1 demoProp
    (by decide) (by decide) (by decide) (by decide)

/-- Claim C8: a visible booking whose referenced property id no longer
resolves is still returned by the listing, with the explicit
absent-property marker (none) in place of the joined property record. -/
theorem get_user_bookings_dangling (s : Store) (u : User) (b : Booking)
    (hb : b ∈ visibleBookings s u)
    (hmiss : s.properties.find? (fun p => p.id == b.property_id) = none) :
    (⟨stripBooking b, none⟩ : BookingWithProperty) ∈ get_user_bookings s u := by
  unfold get_user_bookings
  refine List.mem_map.mpr ⟨b, hb, ?_⟩
  rw [hmiss]
  rfl

/-- Witness for C8: demoBooking2 references the nonexistent property id
ghost; its owner demoUser2 still receives it in the listing, paired with
the absent-property marker. -/
theorem get_user_bookings_dangling_witness :
    (⟨stripBooking demoBooking2, none⟩ : BookingWithProperty) ∈
      get_user_bookings demoStore2 demoUser2 :=
  get_user_bookings_dangling demoStore2 demoUser2 demoBooking2 (by decide) (by decide)

/-- Claim C9: every record returned by the booking list has the
store-internal identity field stripped from the booking and from the
joined property, and the delete operation returns only a fixed success
payload containing no record at all. -/
theorem api_strips_store_identity (s : Store) (u : User) :
    (∀ r ∈ get_user_bookings s u, r.booking.mongoId = none ∧
        ∀ p, r.property = some p → p.mongoId = none) ∧
    (∀ bid s2 resp, delete_booking s u bid = (s2, Except.ok resp) →
        resp = { success := true, message := "Booking deleted successfully" }) := by
  constructor
  · intro r hr
    rcases List.mem_map.mp hr with ⟨b, hbm, rfl⟩
    refine ⟨rfl, ?_⟩
    intro p hp
    rcases Option.map_eq_some'.mp hp with ⟨q, hq, hq2⟩
    rw [← hq2]
    rfl
  · intro bid s2 resp h
    unfold delete_booking at h
    cases hf : s.bookings.find? (fun b => b.id == bid) with
    | none =>
      rw [hf] at h
      simp at h
    | some b =>
      rw [hf] at h
      by_cases hc : (b.user_id != u.id && u.email != adminEmail) = true
      · simp [hc] at h
      · have hpb := List.find?_some hf
        have ha : s.bookings.any (fun b2 => b2.id == bid) = true :=
          List.any_eq_true.mpr ⟨b, List.mem_of_find?_eq_some hf, hpb⟩
        simp [hc, ha] at h
        exact h.2.symm

/-- Witness for C9: the record demoUser receives for demoBooking1 (stored
with a Mongo identity) carries no store-internal identity, neither on the
booking nor on the joined property. -/
theorem api_strips_store_identity_witness :
    (stripBooking demoBooking1).mongoId = none ∧
    (stripProperty demoProp).mongoId = none := by
  have h := (api_strips_store_identity demoStore2 demoUser).1
    ⟨stripBooking demoBooking1, some (stripProperty demoProp)⟩ (by decide)
  exact ⟨h.1, h.2 (stripProperty demoProp) rfl⟩

/-- Claim C10: falsy criterion values are treated as unset: an empty city
or property type string, a zero minimum or maximum price, or a zero
minimum guest count each impose no constraint, behaving exactly as an
absent argument. -/
theorem falsy_criteria_are_unset (s : Store) :
    (∀ mi ma mg pt, get_properties s (some "") mi ma mg pt = get_properties s none mi ma mg pt) ∧
    (∀ city ma mg pt,
      get_properties s city (some 0) ma mg pt = get_properties s city none ma mg pt) ∧
    (∀ city mi mg pt,
      get_properties s city mi (some 0) mg pt = get_properties s city mi none mg pt) ∧
    (∀ city mi ma pt,
      get_properties s city mi ma (some 0) pt = get_properties s city mi ma none pt) ∧
    (∀ city mi ma mg,
      get_properties s city mi ma mg (some "") = get_properties s city mi ma mg none) := by
  refine ⟨fun _ _ _ _ => rfl, fun _ _ _ _ => rfl, fun _ _ _ _ => rfl, fun _ _ _ _ => rfl,
    fun _ _ _ _ => rfl⟩

end Wunderwohn
